import Mathlib

/-!
Shallow embedding of the patent-query-optimizer core
(`simplified_patent_search.py`, `run_patent_search.py`).

Python strings are sequences of Unicode code points and are modelled by
`String` with the decision-relevant operations (`strip`, `startswith`,
slicing, `str.isalnum`, `str.upper`) expressed over `String.data`.
`Char.isAlphanum` / `Char.toUpper` model the Python character predicates;
they agree on the ASCII patent identifiers the code compares.

External collaborators (the search provider, the language model, the
clock) are modelled by explicit parameters carrying their outcome for the
one call the embedded function makes: a collaborator call that may raise
is an `Except String` value, a raised exception being `Except.error` with
the exception text.  The on-disk JSON cache file is modelled by the
outcome of `json.load`: absent file, parse failure, or a parsed JSON
value.  The in-memory cache dict is an association list in which the most
recent binding shadows older ones.
-/

namespace PatentSearch

/-- Model of Python's default `str.strip` character class (the code only
ever strips ordinary whitespace around model answers). -/
def pyIsSpace (c : Char) : Bool := c.isWhitespace

/-- Both-ends whitespace trim on code-point lists, as Python `str.strip()`. -/
def stripL (l : List Char) : List Char :=
  ((l.dropWhile pyIsSpace).reverse.dropWhile pyIsSpace).reverse

/-- Python `s.strip()`. -/
def pyStrip (s : String) : String := ⟨stripL s.data⟩

/-- Model of `_normalize_patent_number`: `''.join(filter(str.isalnum, patent_number)).upper()`. -/
def _normalize_patent_number (patent_number : String) : String :=
  ⟨(patent_number.data.filter Char.isAlphanum).map Char.toUpper⟩

/-- One patent record as assembled by `search_patents` from a provider hit;
absent provider fields default to the empty string. -/
structure PatentRecord where
  title : String
  patent_number : String
  filing_date : String
  publication_date : String
  inventors : String
  assignee : String
  abstract : String
  link : String
deriving DecidableEq

/-- One value of the cache dict: `{"patent_data": ..., "last_updated": ...}`. -/
structure CacheEntry where
  patent_data : PatentRecord
  last_updated : String
deriving DecidableEq

/-- The in-memory cache dict of `PatentCache`, query string to entry.
Most recent binding shadows older ones (dict assignment). -/
abbrev Cache := List (String × CacheEntry)

/-- JSON values, the possible results of `json.load` on the cache file. -/
inductive Json where
  | null
  | bool (b : Bool)
  | num (n : Int)
  | str (s : String)
  | arr (elems : List Json)
  | obj (fields : List (String × Json))

/-- Model of `PatentCache._load_cache`.  The argument is the state of the cache
file: `none` when the file does not exist, `some (Except.error e)` when
`json.load` raises `json.JSONDecodeError`, and `some (Except.ok v)` when
the file parses to the JSON value `v` (of any shape). -/
def _load_cache (file : Option (Except String Json)) : Json :=
  match file with
  | none => Json.obj []
  | some (Except.error _) => Json.obj []
  | some (Except.ok v) => v

/-- Model of `PatentCache.update_cache`: `self.cache[query] = {"patent_data": ...,
"last_updated": now}` (the synchronous `_save_cache` flush is the
identity on the modelled state). -/
def update_cache (cache : Cache) (query : String) (patent_data : PatentRecord)
    (now : String) : Cache :=
  (query, { patent_data := patent_data, last_updated := now }) :: cache

/-- Model of `PatentCache.get_cached_patent`:
`self.cache.get(query, {}).get("patent_data", {})`; the empty dict `{}`
returned on a miss is modelled as `none`. -/
def get_cached_patent (cache : Cache) (query : String) : Option PatentRecord :=
  match cache.find? (fun e => e.1 == query) with
  | some e => some e.2.patent_data
  | none => none

/-- Model of `SimplifiedPatentSearch._get_most_relevant_patent`.  `model` is the
outcome of the chat-completion call (`Except.error` when the call, or
anything else inside the `try`, raises).  Returns `none` for the Python
empty dict `{}`. -/
def _get_most_relevant_patent (model : Except String String)
    (patents_df : List PatentRecord) : Option PatentRecord :=
  if patents_df.isEmpty then none
  else
    match model with
    | Except.error _ => patents_df.head?
    | Except.ok content =>
      let sample_patents := patents_df.take 10
      let normalized_response := _normalize_patent_number (pyStrip content)
      match sample_patents.filter
          (fun p => _normalize_patent_number p.patent_number == normalized_response) with
      | [] => sample_patents.head?
      | p :: _ => some p

/-- Model of `SimplifiedPatentSearch.search_patents`.  `serp` is the outcome of the
provider call: `Except.error` when it raises, `Except.ok none` when the
response carries no `"organic_results"` key, `Except.ok (some patents)`
otherwise.  `best_match_model` is the outcome of the model call made by
`_get_most_relevant_patent`.  Returns the result rows and the cache after
the conditional best-match write. -/
def search_patents (serp : Except String (Option (List PatentRecord)))
    (best_match_model : Except String String) (query : String)
    (cache : Cache) (now : String) : List PatentRecord × Cache :=
  match serp with
  | Except.error _ => ([], cache)
  | Except.ok none => ([], cache)
  | Except.ok (some patents) =>
    if patents.isEmpty then (patents, cache)
    else
      match _get_most_relevant_patent best_match_model patents with
      | some p => (patents, update_cache cache query p now)
      | none => (patents, cache)

/-- The fixed message `evaluate_search_results` returns on an empty result set. -/
def no_results_message : String := "検索結果が得られませんでした。"

/-- Model of `SimplifiedPatentSearch.evaluate_search_results`.  The `Bool` records
whether the language-model collaborator was invoked on this call. -/
def evaluate_search_results (eval_model : Except String String)
    (df : List PatentRecord) : String × Bool :=
  if df.isEmpty then (no_results_message, false)
  else
    match eval_model with
    | Except.ok content => (content, true)
    | Except.error err => ("評価中にエラーが発生しました: " ++ err, true)

/-- Model of `truncate_text` as defined inside `optimize_query`. -/
def truncate_text (text : String) (max_length : Nat) : String :=
  if text.data.length > max_length then ⟨text.data.take max_length⟩ ++ "..." else text

/-- Python `l[-3:]`. -/
def lastThree (l : List String) : List String := l.drop (l.length - 3)

/-- The fixed system prompt of `optimize_query`: one constant string
containing the instructions for all three result-count cases. -/
def optimize_system_prompt : String :=
  "あなたは特許検索クエリを最適化する専門家です。\n過去の検索履歴と評価結果を参考に、より良い検索結果が得られるようクエリを1つ提案してください。\n\n重要な指示:\n1. 検索結果が0件の場合:\n   - まず、より上位の概念を使用してクエリを作成してください\n   - 例: 「空飛ぶ自動車の折りたたみ式翼」→「自動車用の可変構造翼」\n   \n2. 検索結果が多すぎる場合（1000件以上）:\n   - より具体的な下位概念を使用してクエリを作成してください\n   - 例: 「自動運転」→「市街地での自動運転制御方法」\n\n3. 適度な結果件数（1-1000件）の場合:\n   - 現在の抽象度を維持しながら、関連性の高い結果が得られるようクエリを最適化してください\n\nクエリだけを返してください。余分な説明や「提案クエリ：」などのプレフィックスは不要です。"

/-- The user message of `optimize_query`, assembled from the live query,
the live result count, the truncated live evaluation and the most recent
three history pairs. -/
def optimize_user_message (query : String) (result_count : Nat) (evaluation : String)
    (previous_queries previous_evaluations : List String) : String :=
  let base := "\n基本クエリ: " ++ query
    ++ "\n現在の検索結果件数: " ++ toString result_count
    ++ "\n現在の評価結果: " ++ truncate_text evaluation 200 ++ "\n\n"
  let withHistory :=
    if previous_queries.isEmpty || previous_evaluations.isEmpty then base
    else base ++ "過去の検索履歴（要約）:\n"
      ++ ((List.zip (lastThree previous_queries) (lastThree previous_evaluations)).foldl
            (fun acc pe =>
              acc ++ "クエリ: " ++ pe.1 ++ "\n評価: " ++ truncate_text pe.2 200 ++ "\n\n") "")
  withHistory ++ "上記の情報を基に、より良い検索クエリを1つ提案してください。\n特に、検索結果件数に基づいて適切な抽象度のクエリを提案してください。"

/-- The (system prompt, user message) pair `optimize_query` sends to the
rewrite model. -/
def optimize_messages (query : String) (result_count : Nat) (evaluation : String)
    (previous_queries previous_evaluations : List String) : String × String :=
  (optimize_system_prompt,
   optimize_user_message query result_count evaluation previous_queries previous_evaluations)

/-- The `logger.info` line chosen by the `result_count` branch at the end
of `optimize_query` (the only place the count is branched on). -/
def optimize_log_message (result_count : Nat) (improved_query : String) : String :=
  if result_count = 0 then
    "検索結果が0件のため、より上位の概念でクエリを最適化: " ++ improved_query
  else if result_count > 1000 then
    "検索結果が多すぎるため、より具体的な概念でクエリを最適化: " ++ improved_query
  else
    "適度な結果件数のため、関連性を重視してクエリを最適化: " ++ improved_query

/-- First label artifact stripped from the model answer. -/
def label1 : String := "提案クエリ: "

/-- Second label artifact stripped from the model answer. -/
def label2 : String := "改善クエリ: "

/-- Third label artifact stripped from the model answer. -/
def label3 : String := "最適化クエリ: "

/-- One pass of the label loop body:
`if improved_query.startswith(lab): improved_query = improved_query[len(lab):]`. -/
def strip_label (lab s : String) : String :=
  if lab.data.isPrefixOf s.data then ⟨s.data.drop lab.data.length⟩ else s

/-- The answer-cleaning steps of `optimize_query`: strip, the three-label
loop in order, strip again. -/
def clean_improved_query (raw : String) : String :=
  pyStrip (strip_label label3 (strip_label label2 (strip_label label1 (pyStrip raw))))

/-- Model of `SimplifiedPatentSearch.optimize_query`.  `serp` and
`best_match_model` feed the internal `search_patents` re-search,
`eval_model` the internal `evaluate_search_results`, and `opt_model` is
the rewrite-model collaborator, given the messages `optimize_query`
builds for it.  Returns `((improved_query, evaluation), cache')`. -/
def optimize_query (serp : Except String (Option (List PatentRecord)))
    (best_match_model eval_model : Except String String)
    (opt_model : String × String → Except String String)
    (query : String) (previous_queries previous_evaluations : List String)
    (cache : Cache) (now : String) : (String × String) × Cache :=
  let sr := search_patents serp best_match_model query cache now
  let results := sr.1
  let cache1 := sr.2
  let evaluation := (evaluate_search_results eval_model results).1
  let result_count := results.length
  match opt_model (optimize_messages query result_count evaluation
      previous_queries previous_evaluations) with
  | Except.error e => ((query, "最適化中にエラーが発生しました: " ++ e), cache1)
  | Except.ok content => ((clean_improved_query content, evaluation), cache1)

/-- One row of the `query_history` DataFrame of `run_patent_search.main`. -/
structure IterationRecord where
  iteration : Nat
  query : String
  num_results : Nat
  evaluation : String
  timestamp : String
deriving DecidableEq

/-- What the collaborators answer at one loop iteration of
`run_patent_search.main`: the rows `search_patents` returns, the text
`evaluate_search_results` returns, the first component of
`optimize_query`, and the row timestamp. -/
structure IterOracle where
  searchRes : List PatentRecord
  evalText : String
  optQuery : String
  timestamp : String
deriving DecidableEq

/-- The `for iteration in range(args.iterations)` loop of
`run_patent_search.main`, restricted to the history it accumulates:
search; break before recording anything when the result set is empty;
otherwise append the iteration row and, when optimization is enabled and
this is not the last iteration, continue with the optimized query. -/
def runIters (oracle : Nat → IterOracle) (doOpt : Bool) (iterations : Nat) :
    String → Nat → Nat → List IterationRecord
  | _, _, 0 => []
  | q, i, fuel + 1 =>
    let o := oracle i
    if o.searchRes.isEmpty then []
    else
      { iteration := i + 1, query := q, num_results := o.searchRes.length,
        evaluation := o.evalText, timestamp := o.timestamp } ::
      runIters oracle doOpt iterations
        (if doOpt ∧ i < iterations - 1 then o.optQuery else q) (i + 1) fuel

/-- The final `query_history` of a run of `main` with the given iteration
count, optimize flag and initial query. -/
def searchLoopHistory (oracle : Nat → IterOracle) (doOpt : Bool)
    (iterations : Nat) (query : String) : List IterationRecord :=
  runIters oracle doOpt iterations query 0 iterations

/-! ### Character-level facts about the ASCII case model -/

lemma char_toNat_ofNat {n : Nat} (h : n.isValidChar) : (Char.ofNat n).toNat = n := by
  simp [Char.ofNat, h, Char.ofNatAux, Char.toNat, UInt32.toNat]

lemma char_isUpper_iff (c : Char) : c.isUpper = true ↔ (65 ≤ c.toNat ∧ c.toNat ≤ 90) := by
  simp [Char.isUpper, UInt32.le_def, BitVec.le_def, Char.toNat, UInt32.toNat]

lemma char_isLower_iff (c : Char) : c.isLower = true ↔ (97 ≤ c.toNat ∧ c.toNat ≤ 122) := by
  simp [Char.isLower, UInt32.le_def, BitVec.le_def, Char.toNat, UInt32.toNat]

lemma char_toUpper_of_lower (c : Char) (h : 97 ≤ c.toNat ∧ c.toNat ≤ 122) :
    c.toUpper = Char.ofNat (c.toNat - 32) := by
  simp [Char.toUpper, h]

lemma char_toUpper_of_not_lower (c : Char) (h : ¬(97 ≤ c.toNat ∧ c.toNat ≤ 122)) :
    c.toUpper = c := by
  simp [Char.toUpper, h]

lemma char_toNat_toUpper_of_lower (c : Char) (h : 97 ≤ c.toNat ∧ c.toNat ≤ 122) :
    c.toUpper.toNat = c.toNat - 32 := by
  rw [char_toUpper_of_lower c h]
  exact char_toNat_ofNat (Or.inl (by omega))

lemma char_toUpper_toUpper (c : Char) : c.toUpper.toUpper = c.toUpper := by
  by_cases h : 97 ≤ c.toNat ∧ c.toNat ≤ 122
  · have h2 := char_toNat_toUpper_of_lower c h
    apply char_toUpper_of_not_lower
    omega
  · rw [char_toUpper_of_not_lower c h, char_toUpper_of_not_lower c h]

lemma char_isAlphanum_toUpper (c : Char) : c.toUpper.isAlphanum = c.isAlphanum := by
  by_cases h : 97 ≤ c.toNat ∧ c.toNat ≤ 122
  · have h2 := char_toNat_toUpper_of_lower c h
    have hu : c.toUpper.isUpper = true := (char_isUpper_iff _).mpr (by omega)
    have hl : c.isLower = true := (char_isLower_iff _).mpr h
    simp [Char.isAlphanum, Char.isAlpha, hu, hl]
  · rw [char_toUpper_of_not_lower c h]

/-! ### Cache helper lemmas -/

lemma get_update_self (c : Cache) (q : String) (p : PatentRecord) (t : String) :
    get_cached_patent (update_cache c q p t) q = some p := by
  simp [get_cached_patent, update_cache, List.find?]

lemma get_absent (c : Cache) (q : String) (h : ∀ e ∈ c, e.1 ≠ q) :
    get_cached_patent c q = none := by
  induction c with
  | nil => rfl
  | cons a t ih =>
    have ha : (a.1 == q) = false := by
      simpa using h a (by simp)
    have ht := ih (fun e he => h e (List.mem_cons_of_mem a he))
    simp [get_cached_patent, List.find?, ha] at ht ⊢
    exact ht

/-! ### String helper lemmas for the answer-cleaning steps -/

lemma dropWhile_cons_false {p : Char → Bool} {c : Char} {l : List Char} (h : p c = false) :
    (c :: l).dropWhile p = c :: l := by
  simp [List.dropWhile, h]

lemma head_false_of_dropWhile_eq {p : Char → Bool} {c : Char} {l : List Char}
    (h : (c :: l).dropWhile p = c :: l) : p c = false := by
  have := List.dropWhile_eq_self_iff.mp h (by simp)
  simpa using this

lemma stripL_parts {l : List Char} (h : stripL l = l) :
    l.dropWhile pyIsSpace = l ∧ l.reverse.dropWhile pyIsSpace = l.reverse := by
  unfold stripL at h
  have hlen1 : (l.dropWhile pyIsSpace).length ≤ l.length :=
    (List.dropWhile_sublist _).length_le
  have hlen2 : ((l.dropWhile pyIsSpace).reverse.dropWhile pyIsSpace).length
      ≤ (l.dropWhile pyIsSpace).length := by
    calc ((l.dropWhile pyIsSpace).reverse.dropWhile pyIsSpace).length
        ≤ (l.dropWhile pyIsSpace).reverse.length := (List.dropWhile_sublist _).length_le
      _ = (l.dropWhile pyIsSpace).length := List.length_reverse _
  have hlen0 : ((l.dropWhile pyIsSpace).reverse.dropWhile pyIsSpace).length = l.length := by
    rw [← List.length_reverse (((l.dropWhile pyIsSpace).reverse.dropWhile pyIsSpace)), h]
  have ha : l.dropWhile pyIsSpace = l :=
    (List.dropWhile_sublist _).eq_of_length (by omega)
  refine ⟨ha, ?_⟩
  rw [ha] at h
  have h2 := congrArg List.reverse h
  rw [List.reverse_reverse] at h2
  exact h2

lemma stripL_head_append {c : Char} {pr q : List Char} (hc : pyIsSpace c = false)
    (hq : q ≠ []) (hql : q.reverse.dropWhile pyIsSpace = q.reverse) :
    stripL ((c :: pr) ++ q) = (c :: pr) ++ q := by
  unfold stripL
  obtain ⟨d, t, hdt⟩ : ∃ d t, q.reverse = d :: t := by
    cases hrev : q.reverse with
    | nil => exact absurd (by simpa using congrArg List.reverse hrev) hq
    | cons d t => exact ⟨d, t, rfl⟩
  have hd : pyIsSpace d = false := head_false_of_dropWhile_eq (hdt ▸ hql)
  rw [List.cons_append, dropWhile_cons_false hc, ← List.cons_append]
  have key : (((c :: pr) ++ q).reverse).dropWhile pyIsSpace = ((c :: pr) ++ q).reverse := by
    rw [List.reverse_append, hdt, List.cons_append]
    exact dropWhile_cons_false hd
  rw [key, List.reverse_reverse]

lemma pyStrip_eq_self_data {s : String} (h : pyStrip s = s) : stripL s.data = s.data :=
  congrArg String.data h

lemma isPrefixOf_append_self (p q : List Char) : p.isPrefixOf (p ++ q) = true := by
  induction p with
  | nil => simp [List.isPrefixOf]
  | cons a t ih => simp [List.isPrefixOf, ih]

lemma isPrefixOf_cons_false {a b : Char} (hab : (a == b) = false) (t l : List Char) :
    (a :: t).isPrefixOf (b :: l) = false := by
  simp [List.isPrefixOf]
  intro h
  simp [h] at hab

lemma strip_label_of_append (lab q : String) : strip_label lab (lab ++ q) = q := by
  unfold strip_label
  rw [String.data_append, if_pos (isPrefixOf_append_self _ _), List.drop_left]

lemma strip_label_of_not (lab s : String) (h : lab.data.isPrefixOf s.data = false) :
    strip_label lab s = s := by
  unfold strip_label
  rw [h]
  simp

lemma label1_data : label1.data = ['提', '案', 'ク', 'エ', 'リ', ':', ' '] := rfl

lemma label2_data : label2.data = ['改', '善', 'ク', 'エ', 'リ', ':', ' '] := rfl

lemma label3_data : label3.data = ['最', '適', '化', 'ク', 'エ', 'リ', ':', ' '] := rfl

lemma pyStrip_label_append (lab q : String) (c : Char) (pr : List Char)
    (hlab : lab.data = c :: pr) (hc : pyIsSpace c = false)
    (hq : q.data ≠ []) (hs : pyStrip q = q) :
    pyStrip (lab ++ q) = lab ++ q := by
  have hparts := stripL_parts (pyStrip_eq_self_data hs)
  show String.mk (stripL (lab ++ q).data) = lab ++ q
  rw [String.data_append, hlab, stripL_head_append hc hq hparts.2, ← hlab, ← String.data_append]

lemma clean_of_label1 (q : String) (hq : q.data ≠ []) (hs : pyStrip q = q)
    (h2 : label2.data.isPrefixOf q.data = false)
    (h3 : label3.data.isPrefixOf q.data = false) :
    clean_improved_query (label1 ++ q) = q := by
  unfold clean_improved_query
  rw [pyStrip_label_append label1 q '提' _ label1_data (by decide) hq hs]
  rw [strip_label_of_append]
  rw [strip_label_of_not _ _ h2, strip_label_of_not _ _ h3, hs]

lemma clean_of_label2 (q : String) (hq : q.data ≠ []) (hs : pyStrip q = q)
    (h3 : label3.data.isPrefixOf q.data = false) :
    clean_improved_query (label2 ++ q) = q := by
  unfold clean_improved_query
  rw [pyStrip_label_append label2 q '改' _ label2_data (by decide) hq hs]
  have hno1 : label1.data.isPrefixOf (label2 ++ q).data = false := by
    rw [String.data_append, label1_data, label2_data]
    exact isPrefixOf_cons_false (by decide) _ _
  rw [strip_label_of_not _ _ hno1]
  rw [strip_label_of_append]
  rw [strip_label_of_not _ _ h3, hs]

lemma clean_of_label3 (q : String) (hq : q.data ≠ []) (hs : pyStrip q = q) :
    clean_improved_query (label3 ++ q) = q := by
  unfold clean_improved_query
  rw [pyStrip_label_append label3 q '最' _ label3_data (by decide) hq hs]
  have hno1 : label1.data.isPrefixOf (label3 ++ q).data = false := by
    rw [String.data_append, label1_data, label3_data]
    exact isPrefixOf_cons_false (by decide) _ _
  have hno2 : label2.data.isPrefixOf (label3 ++ q).data = false := by
    rw [String.data_append, label2_data, label3_data]
    exact isPrefixOf_cons_false (by decide) _ _
  rw [strip_label_of_not _ _ hno1, strip_label_of_not _ _ hno2]
  rw [strip_label_of_append, hs]

/-! ### Best-match selector helper lemmas -/

lemma selector_of_error (e : String) (a : PatentRecord) (t : List PatentRecord) :
    _get_most_relevant_patent (Except.error e) (a :: t) = some a := by
  simp [_get_most_relevant_patent]

lemma selector_of_no_match (r : String) (a : PatentRecord) (t : List PatentRecord)
    (hmiss : ∀ p ∈ (a :: t).take 10,
      _normalize_patent_number p.patent_number ≠ _normalize_patent_number (pyStrip r)) :
    _get_most_relevant_patent (Except.ok r) (a :: t) = some a := by
  have hfil : ((a :: t).take 10).filter
      (fun p => _normalize_patent_number p.patent_number
        == _normalize_patent_number (pyStrip r)) = [] := by
    apply List.filter_eq_nil_iff.mpr
    intro p hp
    simpa using hmiss p hp
  have htake : (a :: t).take 10 = a :: t.take 9 := rfl
  rw [htake] at hfil
  simp [_get_most_relevant_patent, htake, hfil]

lemma selector_ne_none (model : Except String String) (a : PatentRecord)
    (t : List PatentRecord) :
    _get_most_relevant_patent model (a :: t) ≠ none := by
  cases model with
  | error e => simp [selector_of_error]
  | ok r =>
    unfold _get_most_relevant_patent
    have htake : (a :: t).take 10 = a :: t.take 9 := rfl
    simp only [List.isEmpty_cons, Bool.false_eq_true, if_false, htake]
    cases hfil : (a :: t.take 9).filter
        (fun p => _normalize_patent_number p.patent_number
          == _normalize_patent_number (pyStrip r)) with
    | nil => simp [htake, hfil]
    | cons b l => simp [htake, hfil]

/-! ### Optimize and loop helper lemmas -/

lemma optimize_cache_component (serp : Except String (Option (List PatentRecord)))
    (bm em : Except String String) (om : String × String → Except String String)
    (query now : String) (pq pe : List String) (cache : Cache) :
    (optimize_query serp bm em om query pq pe cache now).2
      = (search_patents serp bm query cache now).2 := by
  unfold optimize_query
  cases hom : om (optimize_messages query
      (search_patents serp bm query cache now).1.length
      ((evaluate_search_results em (search_patents serp bm query cache now).1).1) pq pe) with
  | error e => simp [hom]
  | ok c => simp [hom]

lemma search_patents_cache (bm : Except String String) (query now : String)
    (cache : Cache) (a : PatentRecord) (t : List PatentRecord) :
    ∃ p, _get_most_relevant_patent bm (a :: t) = some p ∧
      (search_patents (Except.ok (some (a :: t))) bm query cache now).2
        = update_cache cache query p now := by
  cases hsel : _get_most_relevant_patent bm (a :: t) with
  | none => exact absurd hsel (selector_ne_none bm a t)
  | some p =>
    refine ⟨p, rfl, ?_⟩
    simp [search_patents, hsel]

lemma runIters_cut (oracle oracle2 : Nat → IterOracle) (d : Bool) (N m : Nat)
    (hagree : ∀ j, j ≤ m → oracle2 j = oracle j)
    (hempty : (oracle m).searchRes = [])
    (hprev : ∀ j, j < m → (oracle j).searchRes ≠ []) :
    ∀ fuel i q, i ≤ m → m < i + fuel →
      (runIters oracle d N q i fuel).length = m - i ∧
      runIters oracle2 d N q i fuel = runIters oracle d N q i fuel := by
  intro fuel
  induction fuel with
  | zero => intro i q hi hm; omega
  | succ f ih =>
    intro i q hi hm
    by_cases hieq : i = m
    · subst hieq
      refine ⟨?_, ?_⟩
      · simp [runIters, hempty]
      · simp [runIters, hempty, hagree i (Nat.le_refl i)]
    · have hilt : i < m := Nat.lt_of_le_of_ne hi hieq
      have hne := hprev i hilt
      have hne2 : (oracle i).searchRes.isEmpty = false := by
        cases hcase : (oracle i).searchRes with
        | nil => exact absurd hcase hne
        | cons a t => rfl
      have hagr := hagree i (Nat.le_of_lt hilt)
      obtain ⟨ihl, ihe⟩ := ih (i + 1)
        (if d ∧ i < N - 1 then (oracle i).optQuery else q) (by omega) (by omega)
      refine ⟨?_, ?_⟩
      · simp only [runIters, hne2, Bool.false_eq_true, if_false, List.length_cons]
        rw [ihl]
        omega
      · simp only [runIters, hne2, hagr, Bool.false_eq_true, if_false]
        rw [ihe]

/-! ### Claim theorems -/

/-- C1, counterexample: the live result count 0 and the live result count
1500 fall in different regimes of the count branch (the log messages
differ), yet the rewrite instruction sent to the model — the system
prompt component of the messages built by `optimize_query` — is the very
same string for both counts: no prompt branch is selected by the count. -/
theorem optimize_regime_counterexample :
    optimize_log_message 0 "自動運転" ≠ optimize_log_message 1500 "自動運転" ∧
    (optimize_messages "自動運転" 0 "評価テキスト" [] []).1
      = (optimize_messages "自動運転" 1500 "評価テキスト" [] []).1 :=
  ⟨by decide, rfl⟩

/-- C1, amended: `optimize_query` classifies the live result count into
three regimes — `count == 0`, `count > 1000`, and everything else — but
the regime selects only the progress log message (broaden / narrow /
hold-steady wording); the rewrite instruction given to the model is one
fixed system prompt containing all three regime instructions, identical
for every count, with the live count supplied only as data in the user
message. -/
theorem optimize_count_regimes :
    (∀ s, optimize_log_message 0 s
        = "検索結果が0件のため、より上位の概念でクエリを最適化: " ++ s) ∧
    (∀ n s, 1000 < n → optimize_log_message n s
        = "検索結果が多すぎるため、より具体的な概念でクエリを最適化: " ++ s) ∧
    (∀ n s, n ≠ 0 → n ≤ 1000 → optimize_log_message n s
        = "適度な結果件数のため、関連性を重視してクエリを最適化: " ++ s) ∧
    (∀ query evaluation pq pe n n',
      (optimize_messages query n evaluation pq pe).1
        = (optimize_messages query n' evaluation pq pe).1) := by
  refine ⟨fun s => rfl, fun n s hn => ?_, fun n s hn0 hn1 => ?_, fun _ _ _ _ _ _ => rfl⟩
  · unfold optimize_log_message
    rw [if_neg (by omega), if_pos (by omega)]
  · unfold optimize_log_message
    rw [if_neg hn0, if_neg (by omega)]

/-- C1, witness: the three regime branches evaluated at the counts 0,
1500 and 50 named by the specification. -/
theorem optimize_count_regimes_witness :
    optimize_log_message 0 "q" = "検索結果が0件のため、より上位の概念でクエリを最適化: " ++ "q" ∧
    optimize_log_message 1500 "q"
      = "検索結果が多すぎるため、より具体的な概念でクエリを最適化: " ++ "q" ∧
    optimize_log_message 50 "q"
      = "適度な結果件数のため、関連性を重視してクエリを最適化: " ++ "q" :=
  ⟨optimize_count_regimes.1 "q",
   optimize_count_regimes.2.1 1500 "q" (by decide),
   optimize_count_regimes.2.2.1 50 "q" (by decide) (by decide)⟩

/-- C2: on a non-empty result set, when the model answer normalizes to
none of the first 10 candidates, or the model call raises, the selector
returns the first record of the candidate set, and in particular never
the empty record. -/
theorem best_match_fallback_first (model : Except String String)
    (df : List PatentRecord) (hne : df ≠ [])
    (hmiss : match model with
      | Except.error _ => True
      | Except.ok r => ∀ p ∈ df.take 10,
          _normalize_patent_number p.patent_number
            ≠ _normalize_patent_number (pyStrip r)) :
    _get_most_relevant_patent model df = df.head? ∧
    _get_most_relevant_patent model df ≠ none := by
  obtain ⟨a, t, rfl⟩ := List.exists_cons_of_ne_nil hne
  cases model with
  | error e =>
    rw [selector_of_error]
    exact ⟨rfl, by simp⟩
  | ok r =>
    rw [selector_of_no_match r a t hmiss]
    exact ⟨rfl, by simp⟩

/-- C2, witness: a one-record result set and a model answer recognizing
no candidate fall back to the first (only) record. -/
theorem best_match_fallback_first_witness :
    _get_most_relevant_patent (Except.ok "ZZ9999")
        [⟨"発明A", "JP2020123456A", "", "", "", "", "", ""⟩]
      = ([⟨"発明A", "JP2020123456A", "", "", "", "", "", ""⟩] : List PatentRecord).head? ∧
    _get_most_relevant_patent (Except.ok "ZZ9999")
        [⟨"発明A", "JP2020123456A", "", "", "", "", "", ""⟩] ≠ none :=
  best_match_fallback_first (Except.ok "ZZ9999")
    [⟨"発明A", "JP2020123456A", "", "", "", "", "", ""⟩] (by decide) (by decide)

/-- C3, counterexample: with a failing search collaborator (and working
model collaborators), `optimize_query` does not return the original
query paired with a failure text — it proceeds on the empty fallback
result set and returns the model's rewritten query paired with the fixed
no-results message. -/
theorem optimize_search_failure_counterexample :
    (optimize_query (Except.error "search failed") (Except.ok "JP1A") (Except.ok "良い評価")
        (fun _ => Except.ok "新クエリ") "元のクエリ" [] [] [] "t").1
      = ("新クエリ", no_results_message) ∧ ("新クエリ" : String) ≠ "元のクエリ" := by
  constructor
  · decide
  · decide

/-- C3, amended: when the rewrite-model call inside `optimize_query`
fails (the only collaborator failure that reaches optimize's own
handler), the operation returns the original query unchanged paired with
an error-description text and raises nothing; search and evaluation
collaborator failures are absorbed earlier with their own fallbacks and
optimization continues. -/
theorem optimize_model_failure_returns_original
    (serp : Except String (Option (List PatentRecord))) (bm em : Except String String)
    (e query now : String) (pq pe : List String) (cache : Cache) :
    (optimize_query serp bm em (fun _ => Except.error e) query pq pe cache now).1
      = (query, "最適化中にエラーが発生しました: " ++ e) := rfl

/-- C4, counterexample: a cache file whose content is valid JSON of a
non-mapping shape (an array) is not treated as empty — `_load_cache`
returns the array itself, which is not the empty mapping. -/
theorem load_cache_nonobject_counterexample :
    _load_cache (some (Except.ok (Json.arr []))) = Json.arr [] ∧
    Json.arr [] ≠ Json.obj [] :=
  ⟨rfl, fun h => Json.noConfusion h⟩

/-- C4, amended: `_load_cache` returns the empty mapping exactly when the
file is absent, the content fails JSON parsing, or the content parses to
the empty mapping itself; content that parses to any JSON value — of
mapping shape or not — is returned unchanged rather than being treated
as empty. -/
theorem load_cache_shape_behavior :
    (∀ file, _load_cache file = Json.obj [] ↔
      (file = none ∨ (∃ e, file = some (Except.error e)) ∨
        file = some (Except.ok (Json.obj [])))) ∧
    (∀ v, _load_cache (some (Except.ok v)) = v) := by
  constructor
  · intro file
    match file with
    | none => simp [_load_cache]
    | some (Except.error e) => simp [_load_cache]
    | some (Except.ok v) => simp [_load_cache]
  · intro v
    rfl

/-- C5: if the search collaborator returns an empty result set at
iteration k (1-based) and non-empty sets before it, the loop's final
history has exactly k-1 records (nothing is appended for iteration k),
and the run is unaffected by whatever the collaborators would have
answered at iterations k+1..N — those iterations are never executed. -/
theorem search_loop_empty_early_termination (oracle : Nat → IterOracle) (doOpt : Bool)
    (N k : Nat) (q : String) (hk1 : 1 ≤ k) (hkN : k ≤ N)
    (hempty : (oracle (k - 1)).searchRes = [])
    (hprev : ∀ j, j < k - 1 → (oracle j).searchRes ≠ []) :
    (searchLoopHistory oracle doOpt N q).length = k - 1 ∧
    (∀ oracle2, (∀ j, j < k → oracle2 j = oracle j) →
      searchLoopHistory oracle2 doOpt N q = searchLoopHistory oracle doOpt N q) := by
  constructor
  · have := runIters_cut oracle oracle doOpt N (k - 1) (fun _ _ => rfl) hempty hprev
      N 0 q (by omega) (by omega)
    simpa [searchLoopHistory] using this.1
  · intro oracle2 hagree
    have := runIters_cut oracle oracle2 doOpt N (k - 1)
      (fun j hj => hagree j (by omega)) hempty hprev N 0 q (by omega) (by omega)
    simpa [searchLoopHistory] using this.2

/-- C5, witness: a 3-iteration run whose search collaborator returns an
empty set at iteration 2 ends with history length 1. -/
theorem search_loop_empty_early_termination_witness :
    (searchLoopHistory
      (fun j => if j = 0
        then ⟨[⟨"発明A", "JP1A", "", "", "", "", "", ""⟩], "評価1", "クエリ2", "t1"⟩
        else ⟨[], "", "", ""⟩) true 3 "q0").length = 2 - 1 :=
  (search_loop_empty_early_termination
    (fun j => if j = 0
      then ⟨[⟨"発明A", "JP1A", "", "", "", "", "", ""⟩], "評価1", "クエリ2", "t1"⟩
      else ⟨[], "", "", ""⟩) true 3 2 "q0" (by decide) (by decide) (by decide)
    (fun j hj => by
      have hj0 : j = 0 := by omega
      subst hj0
      decide)).1

/-- C6: storing a record for a query and reading it back returns exactly
that record, and reading a query with no entry returns the empty
record. -/
theorem cache_put_get_roundtrip :
    (∀ (c : Cache) (q : String) (p : PatentRecord) (t : String),
      get_cached_patent (update_cache c q p t) q = some p) ∧
    (∀ (c : Cache) (q : String), (∀ e ∈ c, e.1 ≠ q) → get_cached_patent c q = none) :=
  ⟨get_update_self, get_absent⟩

/-- C6, witness: the round trip on a concrete record and a miss on an
empty cache. -/
theorem cache_put_get_roundtrip_witness :
    get_cached_patent (update_cache [] "q1" ⟨"発明C", "JP3C", "", "", "", "", "", ""⟩ "t3") "q1"
      = some ⟨"発明C", "JP3C", "", "", "", "", "", ""⟩ ∧
    get_cached_patent [] "unknown" = none :=
  ⟨cache_put_get_roundtrip.1 [] "q1" ⟨"発明C", "JP3C", "", "", "", "", "", ""⟩ "t3",
   cache_put_get_roundtrip.2 [] "unknown" (by simp)⟩

/-- C7: for a trimmed query that itself starts with none of the label
artifacts, a raw model answer consisting of any one of the three known
label artifacts followed by the query yields, through `optimize_query`,
exactly that query. -/
theorem optimize_strips_label_artifacts
    (serp : Except String (Option (List PatentRecord))) (bm em : Except String String)
    (query now : String) (pq pe : List String) (cache : Cache) (q : String)
    (hq : q.data ≠ []) (hs : pyStrip q = q)
    (_h1 : label1.data.isPrefixOf q.data = false)
    (h2 : label2.data.isPrefixOf q.data = false)
    (h3 : label3.data.isPrefixOf q.data = false) :
    (optimize_query serp bm em (fun _ => Except.ok (label1 ++ q)) query pq pe cache now).1.1 = q ∧
    (optimize_query serp bm em (fun _ => Except.ok (label2 ++ q)) query pq pe cache now).1.1 = q ∧
    (optimize_query serp bm em (fun _ => Except.ok (label3 ++ q)) query pq pe cache now).1.1 = q := by
  refine ⟨?_, ?_, ?_⟩
  · show clean_improved_query (label1 ++ q) = q
    exact clean_of_label1 q hq hs h2 h3
  · show clean_improved_query (label2 ++ q) = q
    exact clean_of_label2 q hq hs h3
  · show clean_improved_query (label3 ++ q) = q
    exact clean_of_label3 q hq hs

/-- C7, witness: each label artifact prefixed to a concrete query is
stripped to exactly that query. -/
theorem optimize_strips_label_artifacts_witness :
    (optimize_query (Except.error "e") (Except.ok "JP") (Except.ok "ev")
        (fun _ => Except.ok (label1 ++ "電気自動車のバッテリー")) "元" [] [] [] "t").1.1
      = "電気自動車のバッテリー" ∧
    (optimize_query (Except.error "e") (Except.ok "JP") (Except.ok "ev")
        (fun _ => Except.ok (label2 ++ "電気自動車のバッテリー")) "元" [] [] [] "t").1.1
      = "電気自動車のバッテリー" ∧
    (optimize_query (Except.error "e") (Except.ok "JP") (Except.ok "ev")
        (fun _ => Except.ok (label3 ++ "電気自動車のバッテリー")) "元" [] [] [] "t").1.1
      = "電気自動車のバッテリー" :=
  optimize_strips_label_artifacts (Except.error "e") (Except.ok "JP") (Except.ok "ev")
    "元" "t" [] [] [] "電気自動車のバッテリー"
    (by decide) (by decide) (by decide) (by decide) (by decide)

/-- C8: evaluating an empty result set returns the fixed no-results
message and does not invoke the language-model collaborator. -/
theorem evaluate_empty_no_model_call (eval_model : Except String String) :
    evaluate_search_results eval_model [] = (no_results_message, false) := rfl

/-- C9: the patent-number normalizer (drop every non-alphanumeric
character, then upper-case) is idempotent. -/
theorem normalize_idempotent (s : String) :
    _normalize_patent_number (_normalize_patent_number s) = _normalize_patent_number s := by
  unfold _normalize_patent_number
  apply congrArg String.mk
  have hfil : ((s.data.filter Char.isAlphanum).map Char.toUpper).filter Char.isAlphanum
      = (s.data.filter Char.isAlphanum).map Char.toUpper := by
    apply List.filter_eq_self.mpr
    intro a ha
    obtain ⟨c, hc, rfl⟩ := List.mem_map.mp ha
    rw [char_isAlphanum_toUpper]
    exact List.of_mem_filter hc
  rw [show (String.mk ((s.data.filter Char.isAlphanum).map Char.toUpper)).data
      = (s.data.filter Char.isAlphanum).map Char.toUpper from rfl]
  rw [hfil, List.map_map]
  apply List.map_congr_left
  intro a _
  exact char_toUpper_toUpper a

/-- C10: an `optimize_query` call whose internal live re-search returns a
non-empty result set leaves the cache with an entry keyed by the query,
holding exactly the record chosen by the best-match selection, whatever
the rewrite model then does. -/
theorem optimize_writes_cache_entry (bm em : Except String String)
    (om : String × String → Except String String) (query now : String)
    (pq pe : List String) (cache : Cache)
    (patents : List PatentRecord) (hne : patents ≠ []) :
    get_cached_patent
        (optimize_query (Except.ok (some patents)) bm em om query pq pe cache now).2 query
      = _get_most_relevant_patent bm patents ∧
    _get_most_relevant_patent bm patents ≠ none := by
  obtain ⟨a, t, rfl⟩ := List.exists_cons_of_ne_nil hne
  obtain ⟨p, hp, hc⟩ := search_patents_cache bm query now cache a t
  refine ⟨?_, ?_⟩
  · rw [optimize_cache_component, hc, hp]
    exact get_update_self cache query p now
  · exact selector_ne_none bm a t

/-- C10, witness: a concrete one-record re-search leaves the selected
record cached under the optimized query's key. -/
theorem optimize_writes_cache_entry_witness :
    get_cached_patent
        (optimize_query (Except.ok (some [⟨"発明B", "JP2021A", "", "", "", "", "", ""⟩]))
          (Except.error "model down") (Except.ok "ev") (fun _ => Except.ok "次のクエリ")
          "クエリQ" [] [] [] "t2").2 "クエリQ"
      = _get_most_relevant_patent (Except.error "model down")
          [⟨"発明B", "JP2021A", "", "", "", "", "", ""⟩] ∧
    _get_most_relevant_patent (Except.error "model down")
        [⟨"発明B", "JP2021A", "", "", "", "", "", ""⟩] ≠ none :=
  optimize_writes_cache_entry (Except.error "model down") (Except.ok "ev")
    (fun _ => Except.ok "次のクエリ") "クエリQ" "t2" [] [] []
    [⟨"発明B", "JP2021A", "", "", "", "", "", ""⟩] (by decide)

end PatentSearch
